import Mathlib

/-!
Verification development for the PDF-Genius bot (src/main.py).

The Python source is shallowly embedded: pure layout arithmetic is modelled
over the rationals (Python floats are idealized as exact rationals), strings
are Lean strings (Python len equals the code-point count used here), byte
buffers are lists of naturals, and the external effects of
perform_pdf_conversion (the merge executor, the measured output size, the
wall-clock time) are passed in explicitly as an environment record.
-/

/-! ## Page geometry (reportlab A4 and the margins used in generate_item_pdf)

reportlab defines A4 = (210 mm, 297 mm) with mm = 72 / 25.4 points, so the
page is exactly 75600/127 by 106920/127 points.  generate_item_pdf subtracts
80 points from each axis for images (src/main.py lines 206-207). -/

def A4width : ℚ := 75600 / 127

def A4height : ℚ := 106920 / 127

def max_width : ℚ := A4width - 80

def max_height : ℚ := A4height - 80

/-! ## Image scaling (src/main.py lines 201-218)

scale_down = min(max_width / img_width, max_height / img_height);
if scale_down < 1 the image is shrunk by scale_down, otherwise
scale_up = min((max_width * 0.8) / img_width, (max_height * 0.8) / img_height)
is used exactly when it exceeds 1, and the scale stays 1 otherwise.
The float literal 0.8 is idealized as the rational 4/5. -/

def scale_down (iw ih : ℚ) : ℚ :=
  min (max_width / iw) (max_height / ih)

def scale_up (iw ih : ℚ) : ℚ :=
  min ((max_width * (4 / 5)) / iw) ((max_height * (4 / 5)) / ih)

def imageScale (iw ih : ℚ) : ℚ :=
  if scale_down iw ih < 1 then scale_down iw ih
  else if 1 < scale_up iw ih then scale_up iw ih else 1

/-- Claim C1: for every image of positive dimensions, scale_down is the largest
scale fitting the image into the printable area on both axes and scale_up the
largest scale fitting it into 0.8 of the printable area; when scale_down < 1
the image is drawn at scale_down and both final dimensions stay within the
printable area; otherwise scale_up is used exactly when it exceeds 1, so an
image between the 80 percent fit and the 100 percent fit is drawn at scale
exactly 1. -/
theorem image_scale_spec (iw ih : ℚ) (hw : 0 < iw) (hh : 0 < ih) :
    (∀ s : ℚ, (iw * s ≤ max_width ∧ ih * s ≤ max_height) ↔ s ≤ scale_down iw ih) ∧
    (∀ s : ℚ, (iw * s ≤ max_width * (4 / 5) ∧ ih * s ≤ max_height * (4 / 5)) ↔
      s ≤ scale_up iw ih) ∧
    (scale_down iw ih < 1 →
      imageScale iw ih = scale_down iw ih ∧
      iw * imageScale iw ih ≤ max_width ∧ ih * imageScale iw ih ≤ max_height) ∧
    (1 ≤ scale_down iw ih →
      imageScale iw ih = if 1 < scale_up iw ih then scale_up iw ih else 1) ∧
    (1 ≤ scale_down iw ih → scale_down iw ih ≤ 5 / 4 → imageScale iw ih = 1) := by
  have hfit : ∀ s : ℚ, (iw * s ≤ max_width ∧ ih * s ≤ max_height) ↔ s ≤ scale_down iw ih := by
    intro s
    rw [scale_down, le_min_iff, le_div_iff₀ hw, le_div_iff₀ hh, mul_comm s iw, mul_comm s ih]
  have hfit80 : ∀ s : ℚ,
      (iw * s ≤ max_width * (4 / 5) ∧ ih * s ≤ max_height * (4 / 5)) ↔ s ≤ scale_up iw ih := by
    intro s
    rw [scale_up, le_min_iff, le_div_iff₀ hw, le_div_iff₀ hh, mul_comm s iw, mul_comm s ih]
  refine ⟨hfit, hfit80, ?_, ?_, ?_⟩
  · intro hlt
    have heq : imageScale iw ih = scale_down iw ih := by
      rw [imageScale, if_pos hlt]
    refine ⟨heq, ?_, ?_⟩
    · rw [heq]; exact ((hfit (scale_down iw ih)).mpr le_rfl).1
    · rw [heq]; exact ((hfit (scale_down iw ih)).mpr le_rfl).2
  · intro hge
    rw [imageScale, if_neg (not_lt.mpr hge)]
  · intro hge hle
    have hsup : scale_up iw ih ≤ 1 := by
      rcases min_le_iff.mp hle with h | h
      · refine le_trans (min_le_left _ _) ?_
        rw [div_le_iff₀ hw] at h ⊢
        linarith
      · refine le_trans (min_le_right _ _) ?_
        rw [div_le_iff₀ hh] at h ⊢
        linarith
    rw [imageScale, if_neg (not_lt.mpr hge), if_neg (not_lt.mpr hsup)]

/-- Witness for image_scale_spec at the concrete image size 1000 by 1000. -/
theorem image_scale_spec_witness :
    (0:ℚ) < 1000 ∧ (0:ℚ) < 1000 ∧
    ((∀ s : ℚ, ((1000:ℚ) * s ≤ max_width ∧ (1000:ℚ) * s ≤ max_height) ↔
        s ≤ scale_down 1000 1000) ∧
     (∀ s : ℚ, ((1000:ℚ) * s ≤ max_width * (4 / 5) ∧ (1000:ℚ) * s ≤ max_height * (4 / 5)) ↔
        s ≤ scale_up 1000 1000) ∧
     (scale_down 1000 1000 < 1 →
       imageScale 1000 1000 = scale_down 1000 1000 ∧
       (1000:ℚ) * imageScale 1000 1000 ≤ max_width ∧
       (1000:ℚ) * imageScale 1000 1000 ≤ max_height) ∧
     (1 ≤ scale_down 1000 1000 →
       imageScale 1000 1000 = if 1 < scale_up 1000 1000 then scale_up 1000 1000 else 1) ∧
     (1 ≤ scale_down 1000 1000 → scale_down 1000 1000 ≤ 5 / 4 →
       imageScale 1000 1000 = 1)) :=
  ⟨by norm_num, by norm_num, image_scale_spec 1000 1000 (by norm_num) (by norm_num)⟩

/-! ## Text rendering (src/main.py lines 187-200)

The text branch of generate_item_pdf splits the content on explicit newline
characters (Python content.split of a newline keeps empty segments, and the
empty string yields one empty segment), wraps every segment with
textwrap.wrap at width 80, draws the wrapped lines top to bottom starting at
y = height - 50 with line height 20, calls showPage whenever y drops below
50, and always calls showPage once more after the loop (reportlab emits the
current page unconditionally on showPage, even when it is blank).

textwrap.wrap is modelled as the documented greedy word wrap: the segment is
split into maximal runs of non-whitespace characters, words longer than the
width are broken into width-sized pieces, words are packed onto a line while
the line length plus one separating space plus the word still fits, and a
whitespace-only or empty segment produces no lines at all. -/

def splitNlGo : List Char → List Char → List (List Char)
  | [], cur => [cur.reverse]
  | c :: rest, cur =>
      if c = '\n' then cur.reverse :: splitNlGo rest []
      else splitNlGo rest (c :: cur)

def wordsGo : List Char → List Char → List (List Char)
  | [], cur => if cur = [] then [] else [cur.reverse]
  | c :: rest, cur =>
      if c.isWhitespace then
        if cur = [] then wordsGo rest [] else cur.reverse :: wordsGo rest []
      else wordsGo rest (c :: cur)

def chunkGo : Nat → List Char → List (List Char)
  | 0, _ => []
  | _, [] => []
  | fuel + 1, c :: rest => ((c :: rest).take 80) :: chunkGo fuel ((c :: rest).drop 80)

def chunk80 (w : List Char) : List (List Char) :=
  chunkGo w.length w

def greedyGo : List (List Char) → List Char → List (List Char)
  | [], cur => [cur]
  | w :: ws, cur =>
      if cur.length + 1 + w.length ≤ 80 then greedyGo ws (cur ++ [' '] ++ w)
      else cur :: greedyGo ws w

def wrapLine (line : List Char) : List (List Char) :=
  match ((wordsGo line []).map chunk80).flatten with
  | [] => []
  | w :: ws => greedyGo ws w

def wrapped_text (content : String) : List (List Char) :=
  ((splitNlGo content.toList []).map wrapLine).flatten

def yStart : ℚ := A4height - 50

def textLoop : List (List Char) → ℚ → Nat → Nat
  | [], _, pages => pages
  | _ :: rest, y, pages =>
      if y - 20 < 50 then textLoop rest yStart (pages + 1)
      else textLoop rest (y - 20) pages

def textPageCount (content : String) : Nat :=
  textLoop (wrapped_text content) yStart 0 + 1

theorem textLoop_count (lines : List (List Char)) : ∀ k p : Nat, k ≤ 37 →
    textLoop lines (yStart - 20 * (k : ℚ)) p = p + (k + lines.length) / 38 := by
  induction lines with
  | nil =>
      intro k p hk
      simp only [textLoop, List.length_nil, Nat.add_zero]
      omega
  | cons hd rest ih =>
      intro k p hk
      by_cases h37 : k = 37
      · subst h37
        have hcond : yStart - 20 * ((37 : Nat) : ℚ) - 20 < 50 := by
          simp only [yStart, A4height]
          norm_num
        rw [textLoop, if_pos hcond]
        have h0 : yStart = yStart - 20 * ((0 : Nat) : ℚ) := by push_cast; ring
        rw [h0, ih 0 (p + 1) (by omega)]
        simp only [List.length_cons]
        omega
      · have hk36 : k ≤ 36 := by omega
        have hcast : (k : ℚ) ≤ 36 := by exact_mod_cast hk36
        have hcond : ¬ (yStart - 20 * (k : ℚ) - 20 < 50) := by
          simp only [yStart, A4height, not_lt]
          nlinarith
        rw [textLoop, if_neg hcond]
        have harg : yStart - 20 * (k : ℚ) - 20 = yStart - 20 * (((k + 1 : Nat)) : ℚ) := by
          push_cast; ring
        rw [harg, ih (k + 1) p (by omega)]
        simp only [List.length_cons]
        omega

theorem chunkGo_short (fuel : Nat) : ∀ w : List Char, ∀ l ∈ chunkGo fuel w, l.length ≤ 80 := by
  induction fuel with
  | zero => intro w l hl; simp [chunkGo] at hl
  | succ fuel ih =>
      intro w l hl
      match w with
      | [] => simp [chunkGo] at hl
      | c :: rest =>
          rw [chunkGo] at hl
          rcases List.mem_cons.mp hl with h | h
          · subst h
            exact List.length_take_le 80 (c :: rest)
          · exact ih _ l h

theorem greedyGo_short (ws : List (List Char)) : ∀ cur : List Char,
    (∀ w ∈ ws, w.length ≤ 80) → cur.length ≤ 80 →
    ∀ l ∈ greedyGo ws cur, l.length ≤ 80 := by
  induction ws with
  | nil =>
      intro cur _ hcur l hl
      simp only [greedyGo, List.mem_singleton] at hl
      subst hl; exact hcur
  | cons w ws ih =>
      intro cur hws hcur l hl
      rw [greedyGo] at hl
      by_cases hfits : cur.length + 1 + w.length ≤ 80
      · rw [if_pos hfits] at hl
        refine ih _ (fun v hv => hws v (List.mem_cons_of_mem _ hv)) ?_ l hl
        simp only [List.length_append, List.length_singleton]
        omega
      · rw [if_neg hfits] at hl
        rcases List.mem_cons.mp hl with h | h
        · subst h; exact hcur
        · exact ih _ (fun v hv => hws v (List.mem_cons_of_mem _ hv))
            (hws w (List.mem_cons_self _ _)) l h

theorem wrapLine_short (line : List Char) : ∀ l ∈ wrapLine line, l.length ≤ 80 := by
  intro l hl
  rw [wrapLine] at hl
  have hall : ∀ w ∈ ((wordsGo line []).map chunk80).flatten, w.length ≤ 80 := by
    intro w hw
    rcases List.mem_flatten.mp hw with ⟨chs, hchs, hwin⟩
    rcases List.mem_map.mp hchs with ⟨word, _, hword⟩
    subst hword
    exact chunkGo_short _ _ w hwin
  match hjoin : ((wordsGo line []).map chunk80).flatten with
  | [] => rw [hjoin] at hl; simp at hl
  | w :: ws =>
      rw [hjoin] at hl
      refine greedyGo_short ws w ?_ ?_ l hl
      · intro v hv
        exact hall v (hjoin ▸ List.mem_cons_of_mem _ hv)
      · exact hall w (hjoin ▸ List.mem_cons_self _ _)

/-- Claim C2 (amended): rendering a text item paginates the greedily wrapped
lines (wrap width 80) at 38 lines per page, but because the final showPage
always emits the current page the page count is the floor of lines / 38 plus
one, not the ceiling of lines / 38: the empty string gives one page, and a
wrapped line count that is a positive multiple of 38 yields one extra
trailing blank page. Every produced line respects the wrap width. -/
theorem text_page_count (content : String) :
    textPageCount content = (wrapped_text content).length / 38 + 1 ∧
    textPageCount "" = 1 ∧
    (∀ l ∈ wrapped_text content, l.length ≤ 80) := by
  refine ⟨?_, by decide, ?_⟩
  · have h := textLoop_count (wrapped_text content) 0 0 (by omega)
    have h0 : yStart - 20 * ((0 : Nat) : ℚ) = yStart := by push_cast; ring
    rw [h0] at h
    rw [textPageCount, h]
    omega
  · intro l hl
    rcases List.mem_flatten.mp hl with ⟨ls, hls, hlin⟩
    rcases List.mem_map.mp hls with ⟨seg, _, hseg⟩
    subst hseg
    exact wrapLine_short seg l hlin

/-- Witness for text_page_count at the concrete content "hello". -/
theorem text_page_count_witness :
    textPageCount "hello" = 1 ∧ (['h', 'e', 'l', 'l', 'o'] : List Char).length ≤ 80 :=
  ⟨(text_page_count "hello").1.trans (by decide),
   (text_page_count "hello").2.2 ['h', 'e', 'l', 'l', 'o'] (by decide)⟩

/-- 76 one-character lines: the wrapped line count is exactly twice the
38-line page capacity. -/
def longText : String := String.intercalate "\n" (List.replicate 76 "a")

set_option maxRecDepth 8000 in
/-- Claim C2 counterexample: a text item with 76 wrapped lines (more than the
38 lines that fit on one page) renders to 3 pages, while the claimed formula,
the ceiling of 76 / 38, gives 2: the final showPage emits a trailing blank
page whenever the wrapped line count is an exact positive multiple of 38. -/
theorem text_page_count_counterexample :
    (wrapped_text longText).length = 76 ∧ 38 < 76 ∧
    textPageCount longText = 3 ∧ (76 + 37) / 38 = 2 := by
  have hlen : (wrapped_text longText).length = 76 := by decide
  refine ⟨hlen, by omega, ?_, by omega⟩
  have h := textLoop_count (wrapped_text longText) 0 0 (by omega)
  have h0 : yStart - 20 * ((0 : Nat) : ℚ) = yStart := by push_cast; ring
  rw [h0] at h
  rw [textPageCount, h, hlen]

/-! ## Document merge (src/main.py lines 227-241)

merge_pdfs appends each input buffer to a PdfMerger inside a try/except that
skips (logs) any buffer the merger fails to parse, then always writes the
accumulated pages out and returns the output buffer.  An input is modelled as
some list of pages when it parses and as none when appending it raises; the
returned value is the page list of the written document (a zero-page document
is still a valid, non-empty PDF byte buffer). -/

def merge_pdfs : List (Option (List Nat)) → List Nat
  | [] => []
  | none :: rest => merge_pdfs rest
  | some pages :: rest => pages ++ merge_pdfs rest

/-- Python truthiness of the buffer object merge_pdfs returns: BytesIO
defines neither a bool nor a len conversion, so the object is always truthy,
even when it holds a zero-page document.  The test at src/main.py line 383
(the words are, if not merged_pdf) can therefore only fire when merged_pdf is
None, which happens exactly when the merge executor raised. -/
def bufferFalsy (_buf : List Nat) : Bool := false

/-! ## Sessions and the conversion pipeline (src/main.py lines 348-413)

user_data is a dictionary from user id to a session holding the item list and
the instruction_sent flag.  perform_pdf_conversion reads the item list (empty
when the user is unknown), short-circuits to the no-items error when it is
empty, renders every item, merges, checks the 50 MB cap, normalizes the
filename, delivers the document, clears the items, and always returns the
conversation to STATE_ACCUMULATE.  The merge executor result, the measured
buffer size and the current wall-clock time are environment inputs. -/

inductive Item
  | text (content : String)
  | photo (content : List Nat)
deriving DecidableEq

structure Session where
  items : List Item
  instruction_sent : Bool
deriving DecidableEq

def lookupSession : List (Nat × Session) → Nat → Option Session
  | [], _ => none
  | (k, s) :: rest, uid => if k = uid then some s else lookupSession rest uid

def setSession : List (Nat × Session) → Nat → Session → List (Nat × Session)
  | [], _, _ => []
  | (k, t) :: rest, uid, s =>
      if k = uid then (k, s) :: rest else (k, t) :: setSession rest uid s

structure DateTime where
  year : Nat
  month : Nat
  day : Nat
  hour : Nat
  minute : Nat
  second : Nat
deriving DecidableEq

def pad2 (n : Nat) : String :=
  if n < 10 then "0" ++ toString n else toString n

def pad4 (n : Nat) : String :=
  if n < 10 then "000" ++ toString n
  else if n < 100 then "00" ++ toString n
  else if n < 1000 then "0" ++ toString n
  else toString n

/-- Python strftime with the format used at src/main.py line 395: four-digit
year then two digits each for month, day, hour, minute, second. -/
def strftimeYmdHMS (t : DateTime) : String :=
  pad4 t.year ++ pad2 t.month ++ pad2 t.day ++ pad2 t.hour ++ pad2 t.minute ++ pad2 t.second

/-- Python str.lower restricted to the ASCII range (enough for the suffix
test against the literal ".pdf"). -/
def pyLower (s : String) : String :=
  String.mk (s.toList.map Char.toLower)

def strEndsWith (s suf : String) : Bool :=
  suf.toList.isSuffixOf s.toList

/-- Filename normalization from src/main.py lines 394-399: a missing or empty
name becomes combined_(timestamp).pdf; otherwise the literal suffix ".pdf" is
appended unless the lowercased name already ends with it. -/
def normalizeFilename (file_name : Option String) (now : DateTime) : String :=
  match file_name with
  | none => "combined_" ++ strftimeYmdHMS now ++ ".pdf"
  | some name =>
      if name = "" then "combined_" ++ strftimeYmdHMS now ++ ".pdf"
      else if strEndsWith (pyLower name) ".pdf" then name
      else name ++ ".pdf"

def STATE_ACCUMULATE : Nat := 1

def MAX_OUTPUT_PDF_SIZE : Nat := 50 * 1024 * 1024

/-- The buffer object produced by the merge executor: its pages and the byte
size reported by seeking to the end and calling tell. -/
structure MergedBuf where
  pages : List Nat
  size : Nat
deriving DecidableEq

/-- External inputs of one perform_pdf_conversion call: the merge executor
result (none exactly when the executor raised, src/main.py lines 371-375) and
the wall-clock time used for the generated filename. -/
structure PerformEnv where
  mergeResult : Option MergedBuf
  now : DateTime
deriving DecidableEq

inductive Outcome
  | noItems
  | generationFailed
  | tooLarge
  | delivered (filename : String)
deriving DecidableEq

/-- Instrumentation: how many times generate_item_pdf was invoked and whether
the merge step ran. -/
structure CallTrace where
  renderCalls : Nat
  mergeCalled : Bool
deriving DecidableEq

structure PerformResult where
  outcome : Outcome
  ud : List (Nat × Session)
  nextState : Nat
  trace : CallTrace
deriving DecidableEq

def perform_pdf_conversion (env : PerformEnv) (ud : List (Nat × Session)) (uid : Nat)
    (file_name : Option String) : PerformResult :=
  let items := ((lookupSession ud uid).map Session.items).getD []
  if items = [] then
    ⟨Outcome.noItems, ud, STATE_ACCUMULATE, ⟨0, false⟩⟩
  else
    match env.mergeResult with
    | none => ⟨Outcome.generationFailed, ud, STATE_ACCUMULATE, ⟨items.length, true⟩⟩
    | some buf =>
        if bufferFalsy buf.pages then
          ⟨Outcome.generationFailed, ud, STATE_ACCUMULATE, ⟨items.length, true⟩⟩
        else if MAX_OUTPUT_PDF_SIZE < buf.size then
          ⟨Outcome.tooLarge, ud, STATE_ACCUMULATE, ⟨items.length, true⟩⟩
        else
          ⟨Outcome.delivered (normalizeFilename file_name env.now),
            setSession ud uid ⟨[], false⟩, STATE_ACCUMULATE, ⟨items.length, true⟩⟩

/-! ## Office conversion adapter (src/main.py lines 125-161) -/

inductive ExtRun
  | ok (pdfBytes : List Nat)
  | procFail
  | procTimeout
deriving DecidableEq

/-- External state seen by convert_office_to_pdf: whether shutil.which finds
the libreoffice executable, and how the subprocess call ends (a produced PDF,
a nonzero exit raising CalledProcessError, or a TimeoutExpired after the
fixed 30 second limit; both exceptions land in the same except branch). -/
structure ConvEnv where
  toolPresent : Bool
  run : ExtRun
deriving DecidableEq

def strBytes (s : String) : List Nat :=
  s.toList.map Char.toNat

def convert_office_to_pdf (env : ConvEnv) (original_filename : String) : List Nat :=
  if env.toolPresent = false then
    strBytes "Office file conversion is not supported on this server."
  else
    match env.run with
    | ExtRun.ok pdfBytes => pdfBytes
    | ExtRun.procFail => strBytes ("Unable to convert file: " ++ original_filename)
    | ExtRun.procTimeout => strBytes ("Unable to convert file: " ++ original_filename)

/-! ## Admin panel gate (src/main.py lines 431-444) -/

def ADMIN_ID : String := "5316060523"

def ADMIN_MENU : Nat := 10

/-- What the admin_panel handler does: the conversation state it returns
(none models the bare return for non-admins, which enters no admin state) and
the number of messages it sends. -/
structure AdminPanelResult where
  nextState : Option Nat
  messagesSent : Nat
deriving DecidableEq

def admin_panel (user_id : Nat) : AdminPanelResult :=
  if toString user_id ≠ ADMIN_ID then ⟨none, 0⟩
  else ⟨some ADMIN_MENU, 1⟩

theorem lookupSession_setSession (ud : List (Nat × Session)) (uid : Nat) (t : Session) :
    (lookupSession ud uid).isSome = true →
    lookupSession (setSession ud uid t) uid = some t := by
  induction ud with
  | nil => intro h; simp [lookupSession] at h
  | cons kv rest ih =>
      intro h
      obtain ⟨k, s⟩ := kv
      by_cases hk : k = uid
      · simp [lookupSession, setSession, hk]
      · rw [lookupSession, if_neg hk] at h
        rw [setSession, if_neg hk, lookupSession, if_neg hk]
        exact ih h

/-- Claim C3 (amended): a page-set that fails to parse is skipped and the
remaining page-sets are merged in input order, and an all-parseable batch
merges to the concatenation of its page lists; but when every input is
skipped the merge step still returns a valid zero-page buffer, which is never
falsy, so the caller treats it as a success and delivers it: the generation
failed outcome is produced exactly when the merge executor raises, not when
every input is skipped. -/
theorem merge_skips_corrupted :
    (∀ pre post : List (Option (List Nat)),
      merge_pdfs (pre ++ none :: post) = merge_pdfs (pre ++ post)) ∧
    (∀ docs : List (List Nat), merge_pdfs (docs.map some) = docs.flatten) ∧
    (∀ inputs : List (Option (List Nat)), bufferFalsy (merge_pdfs inputs) = false) ∧
    (∀ (env : PerformEnv) (ud : List (Nat × Session)) (uid : Nat) (fn : Option String)
        (buf : MergedBuf) (s : Session),
      env.mergeResult = some buf → lookupSession ud uid = some s → s.items ≠ [] →
      buf.size ≤ MAX_OUTPUT_PDF_SIZE →
      (perform_pdf_conversion env ud uid fn).outcome =
        Outcome.delivered (normalizeFilename fn env.now)) ∧
    (∀ (env : PerformEnv) (ud : List (Nat × Session)) (uid : Nat) (fn : Option String)
        (s : Session),
      env.mergeResult = none → lookupSession ud uid = some s → s.items ≠ [] →
      (perform_pdf_conversion env ud uid fn).outcome = Outcome.generationFailed) := by
  refine ⟨?_, ?_, fun _ => rfl, ?_, ?_⟩
  · intro pre post
    induction pre with
    | nil => simp [merge_pdfs]
    | cons a pre ih =>
        cases a with
        | none => simpa [merge_pdfs] using ih
        | some pages => simp [merge_pdfs, ih]
  · intro docs
    induction docs with
    | nil => rfl
    | cons d docs ih => simp [merge_pdfs, ih]
  · intro env ud uid fn buf s hm hs hne hsz
    simp [perform_pdf_conversion, hs, hne, hm, bufferFalsy, Nat.not_lt.mpr hsz]
  · intro env ud uid fn s hm hs hne
    simp [perform_pdf_conversion, hs, hne, hm]

/-- Witness for merge_skips_corrupted: one corrupted page-set among three is
dropped, and an intact merge result below the cap is delivered. -/
theorem merge_skips_corrupted_witness :
    merge_pdfs [some [1], none, some [2]] = merge_pdfs [some [1], some [2]] ∧
    (perform_pdf_conversion ⟨some ⟨[1, 2], 100⟩, ⟨2026, 1, 2, 3, 4, 5⟩⟩
        [(7, ⟨[Item.text "x"], true⟩)] 7 (some "report")).outcome =
      Outcome.delivered "report.pdf" :=
  ⟨merge_skips_corrupted.1 [some [1]] [some [2]], by
    have h := merge_skips_corrupted.2.2.2.1 ⟨some ⟨[1, 2], 100⟩, ⟨2026, 1, 2, 3, 4, 5⟩⟩
      [(7, ⟨[Item.text "x"], true⟩)] 7 (some "report") ⟨[1, 2], 100⟩ ⟨[Item.text "x"], true⟩
      rfl rfl (by decide) (by decide)
    rw [h]
    rfl⟩

/-- Claim C3 counterexample: a batch in which every page-set is skipped does
not reach the generation-failed outcome: merge_pdfs returns a zero-page
buffer, the buffer is truthy, and the caller delivers the empty document as a
normal success. -/
theorem merge_all_skipped_counterexample :
    merge_pdfs [none, none] = [] ∧
    bufferFalsy (merge_pdfs [none, none]) = false ∧
    (perform_pdf_conversion ⟨some ⟨merge_pdfs [none, none], 223⟩, ⟨2026, 1, 1, 0, 0, 0⟩⟩
        [(1, ⟨[Item.text "x"], true⟩)] 1 none).outcome =
      Outcome.delivered "combined_20260101000000.pdf" ∧
    (perform_pdf_conversion ⟨some ⟨merge_pdfs [none, none], 223⟩, ⟨2026, 1, 1, 0, 0, 0⟩⟩
        [(1, ⟨[Item.text "x"], true⟩)] 1 none).outcome ≠ Outcome.generationFailed := by
  refine ⟨rfl, rfl, ?_, ?_⟩ <;> decide

/-- Claim C4: a compile request on a session whose item store is empty
invokes neither the renderer nor the merge step, reports the no-items error,
keeps user_data unchanged and returns the conversation to collecting. -/
theorem empty_items_short_circuit (env : PerformEnv) (ud : List (Nat × Session)) (uid : Nat)
    (fn : Option String) (s : Session) (hs : lookupSession ud uid = some s)
    (hempty : s.items = []) :
    perform_pdf_conversion env ud uid fn =
      ⟨Outcome.noItems, ud, STATE_ACCUMULATE, ⟨0, false⟩⟩ := by
  simp [perform_pdf_conversion, hs, hempty]

/-- Witness for empty_items_short_circuit on a concrete empty session. -/
theorem empty_items_short_circuit_witness :
    perform_pdf_conversion ⟨none, ⟨2026, 1, 1, 0, 0, 0⟩⟩ [(3, ⟨[], false⟩)] 3 none =
      ⟨Outcome.noItems, [(3, ⟨[], false⟩)], STATE_ACCUMULATE, ⟨0, false⟩⟩ :=
  empty_items_short_circuit ⟨none, ⟨2026, 1, 1, 0, 0, 0⟩⟩ [(3, ⟨[], false⟩)] 3 none
    ⟨[], false⟩ rfl rfl

/-- Claim C5: a merged document whose size exceeds the 50 MB cap is rejected
before delivery: the outcome is the too-large message, user_data (and with it
the item store) is untouched, and the conversation returns to collecting. -/
theorem size_cap_rejects (env : PerformEnv) (ud : List (Nat × Session)) (uid : Nat)
    (fn : Option String) (buf : MergedBuf) (s : Session)
    (hm : env.mergeResult = some buf) (hsz : MAX_OUTPUT_PDF_SIZE < buf.size)
    (hs : lookupSession ud uid = some s) (hne : s.items ≠ []) :
    perform_pdf_conversion env ud uid fn =
      ⟨Outcome.tooLarge, ud, STATE_ACCUMULATE, ⟨s.items.length, true⟩⟩ := by
  simp [perform_pdf_conversion, hs, hne, hm, bufferFalsy, hsz]

/-- Witness for size_cap_rejects with a 50 MB plus one byte buffer. -/
theorem size_cap_rejects_witness :
    perform_pdf_conversion ⟨some ⟨[], 52428801⟩, ⟨2026, 1, 1, 0, 0, 0⟩⟩
        [(2, ⟨[Item.photo [0]], true⟩)] 2 none =
      ⟨Outcome.tooLarge, [(2, ⟨[Item.photo [0]], true⟩)], STATE_ACCUMULATE, ⟨1, true⟩⟩ :=
  size_cap_rejects ⟨some ⟨[], 52428801⟩, ⟨2026, 1, 1, 0, 0, 0⟩⟩
    [(2, ⟨[Item.photo [0]], true⟩)] 2 none ⟨[], 52428801⟩ ⟨[Item.photo [0]], true⟩
    rfl (by decide) rfl (by decide)

/-- Claim C6: after a successful compilation the document is delivered, the
session still exists in user_data but with an empty item store (and a reset
instruction flag), and the conversation returns to collecting. -/
theorem success_clears_items (env : PerformEnv) (ud : List (Nat × Session)) (uid : Nat)
    (fn : Option String) (buf : MergedBuf) (s : Session)
    (hm : env.mergeResult = some buf) (hsz : buf.size ≤ MAX_OUTPUT_PDF_SIZE)
    (hs : lookupSession ud uid = some s) (hne : s.items ≠ []) :
    (perform_pdf_conversion env ud uid fn).outcome =
      Outcome.delivered (normalizeFilename fn env.now) ∧
    lookupSession (perform_pdf_conversion env ud uid fn).ud uid = some ⟨[], false⟩ ∧
    (perform_pdf_conversion env ud uid fn).nextState = STATE_ACCUMULATE := by
  have hres : perform_pdf_conversion env ud uid fn =
      ⟨Outcome.delivered (normalizeFilename fn env.now), setSession ud uid ⟨[], false⟩,
        STATE_ACCUMULATE, ⟨s.items.length, true⟩⟩ := by
    simp [perform_pdf_conversion, hs, hne, hm, bufferFalsy, Nat.not_lt.mpr hsz]
  rw [hres]
  exact ⟨rfl, lookupSession_setSession ud uid ⟨[], false⟩ (by rw [hs]; rfl), rfl⟩

/-- Witness for success_clears_items on a concrete one-item session. -/
theorem success_clears_items_witness :
    (perform_pdf_conversion ⟨some ⟨[9], 4096⟩, ⟨2026, 1, 1, 0, 0, 0⟩⟩
        [(5, ⟨[Item.text "note"], true⟩)] 5 (some "out")).outcome =
      Outcome.delivered (normalizeFilename (some "out") ⟨2026, 1, 1, 0, 0, 0⟩) ∧
    lookupSession (perform_pdf_conversion ⟨some ⟨[9], 4096⟩, ⟨2026, 1, 1, 0, 0, 0⟩⟩
        [(5, ⟨[Item.text "note"], true⟩)] 5 (some "out")).ud 5 = some ⟨[], false⟩ ∧
    (perform_pdf_conversion ⟨some ⟨[9], 4096⟩, ⟨2026, 1, 1, 0, 0, 0⟩⟩
        [(5, ⟨[Item.text "note"], true⟩)] 5 (some "out")).nextState = STATE_ACCUMULATE :=
  success_clears_items ⟨some ⟨[9], 4096⟩, ⟨2026, 1, 1, 0, 0, 0⟩⟩
    [(5, ⟨[Item.text "note"], true⟩)] 5 (some "out") ⟨[9], 4096⟩ ⟨[Item.text "note"], true⟩
    rfl (by decide) rfl (by decide)

/-- Claim C7: the name report becomes report.pdf, a name already ending in
.pdf is kept, a missing or empty name becomes combined_(timestamp).pdf with
the generation-time timestamp format, and no transformation beyond extension
normalization is applied to a user-supplied name. -/
theorem filename_normalization (now : DateTime) :
    normalizeFilename (some "report") now = "report.pdf" ∧
    normalizeFilename (some "report.pdf") now = "report.pdf" ∧
    normalizeFilename none now = "combined_" ++ strftimeYmdHMS now ++ ".pdf" ∧
    normalizeFilename (some "") now = "combined_" ++ strftimeYmdHMS now ++ ".pdf" ∧
    (∀ name : String, name ≠ "" →
      normalizeFilename (some name) now = name ∨
      normalizeFilename (some name) now = name ++ ".pdf") := by
  refine ⟨rfl, rfl, rfl, rfl, ?_⟩
  intro name hname
  simp only [normalizeFilename]
  rw [if_neg hname]
  by_cases h : strEndsWith (pyLower name) ".pdf" = true
  · left; rw [if_pos h]
  · right; rw [if_neg h]

/-- Witness for filename_normalization at a concrete time and name. -/
theorem filename_normalization_witness :
    normalizeFilename (some "report") ⟨2026, 1, 1, 0, 0, 0⟩ = "report.pdf" ∧
    normalizeFilename none ⟨2026, 1, 1, 0, 0, 0⟩ =
      "combined_" ++ strftimeYmdHMS ⟨2026, 1, 1, 0, 0, 0⟩ ++ ".pdf" ∧
    (normalizeFilename (some "x") ⟨2026, 1, 1, 0, 0, 0⟩ = "x" ∨
      normalizeFilename (some "x") ⟨2026, 1, 1, 0, 0, 0⟩ = "x" ++ ".pdf") :=
  ⟨(filename_normalization ⟨2026, 1, 1, 0, 0, 0⟩).1,
   (filename_normalization ⟨2026, 1, 1, 0, 0, 0⟩).2.2.1,
   (filename_normalization ⟨2026, 1, 1, 0, 0, 0⟩).2.2.2.2 "x" (by decide)⟩

/-- Claim C10: the .pdf suffix test is done on the lowercased name, so a name
ending in .pdf in any letter case is used unchanged, while every other
nonempty name gets the literal lowercase suffix .pdf appended - in particular
a name with a different extension becomes double-extended. -/
theorem filename_extension_case_insensitive :
    (∀ (name : String) (now : DateTime), name ≠ "" →
      strEndsWith (pyLower name) ".pdf" = true →
      normalizeFilename (some name) now = name) ∧
    (∀ (name : String) (now : DateTime), name ≠ "" →
      strEndsWith (pyLower name) ".pdf" = false →
      normalizeFilename (some name) now = name ++ ".pdf") ∧
    (∀ now : DateTime, normalizeFilename (some "Report.PDF") now = "Report.PDF") ∧
    (∀ now : DateTime, normalizeFilename (some "report.txt") now = "report.txt.pdf") := by
  refine ⟨?_, ?_, fun _ => rfl, fun _ => rfl⟩
  · intro name now h1 h2
    simp only [normalizeFilename]
    rw [if_neg h1, if_pos h2]
  · intro name now h1 h2
    simp only [normalizeFilename]
    rw [if_neg h1, if_neg (by rw [h2]; decide)]

/-- Witness for filename_extension_case_insensitive on concrete names. -/
theorem filename_extension_case_insensitive_witness :
    normalizeFilename (some "Doc.PDF") ⟨2026, 1, 1, 0, 0, 0⟩ = "Doc.PDF" ∧
    normalizeFilename (some "a.txt") ⟨2026, 1, 1, 0, 0, 0⟩ = "a.txt" ++ ".pdf" :=
  ⟨filename_extension_case_insensitive.1 "Doc.PDF" ⟨2026, 1, 1, 0, 0, 0⟩
      (by decide) (by decide),
   filename_extension_case_insensitive.2.1 "a.txt" ⟨2026, 1, 1, 0, 0, 0⟩
      (by decide) (by decide)⟩

/-- Claim C8 (amended): when the external tool is absent, or the external
process fails or times out, the adapter returns a user-displayable textual
failure notice instead of raising; but the adapter returns only a byte
payload with no success or failure status alongside it. -/
theorem conversion_failure_notice (env : ConvEnv) (name : String) :
    (env.toolPresent = false →
      convert_office_to_pdf env name =
        strBytes "Office file conversion is not supported on this server.") ∧
    (env.toolPresent = true →
      env.run = ExtRun.procFail ∨ env.run = ExtRun.procTimeout →
      convert_office_to_pdf env name = strBytes ("Unable to convert file: " ++ name)) ∧
    (∀ b : List Nat, convert_office_to_pdf ⟨true, ExtRun.ok b⟩ name = b) := by
  refine ⟨?_, ?_, fun b => rfl⟩
  · intro h
    simp [convert_office_to_pdf, h]
  · intro h hrun
    rcases hrun with h2 | h2 <;> simp [convert_office_to_pdf, h, h2]

/-- Witness for conversion_failure_notice at concrete environments. -/
theorem conversion_failure_notice_witness :
    convert_office_to_pdf ⟨false, ExtRun.procFail⟩ "doc.docx" =
      strBytes "Office file conversion is not supported on this server." ∧
    convert_office_to_pdf ⟨true, ExtRun.procTimeout⟩ "doc.docx" =
      strBytes ("Unable to convert file: " ++ "doc.docx") :=
  ⟨(conversion_failure_notice ⟨false, ExtRun.procFail⟩ "doc.docx").1 rfl,
   (conversion_failure_notice ⟨true, ExtRun.procTimeout⟩ "doc.docx").2.1 rfl (Or.inr rfl)⟩

/-- Claim C8 counterexample: the adapter exposes no success or failure
status: a successful external conversion whose output bytes equal the failure
notice produces exactly the same return value as a failed one, so no function
of the adapter result can discriminate failure from real document content. -/
theorem conversion_no_status_counterexample :
    convert_office_to_pdf ⟨true, ExtRun.ok (strBytes "Unable to convert file: a.docx")⟩
        "a.docx" =
      convert_office_to_pdf ⟨true, ExtRun.procFail⟩ "a.docx" ∧
    ¬ ∃ isFailure : List Nat → Bool,
        isFailure (convert_office_to_pdf ⟨true, ExtRun.procFail⟩ "a.docx") = true ∧
        isFailure (convert_office_to_pdf
          ⟨true, ExtRun.ok (strBytes "Unable to convert file: a.docx")⟩ "a.docx") = false := by
  have heq : convert_office_to_pdf
      ⟨true, ExtRun.ok (strBytes "Unable to convert file: a.docx")⟩ "a.docx" =
      convert_office_to_pdf ⟨true, ExtRun.procFail⟩ "a.docx" := by decide
  refine ⟨heq, ?_⟩
  rintro ⟨f, h1, h2⟩
  rw [heq, h1] at h2
  exact absurd h2 (by decide)

/-- Claim C9: any user whose identity string differs from the configured
administrator identifier is refused silently (no admin state is entered and
no message is sent), the admin menu is entered only when the identity string
matches, and the exact administrator identity does enter the menu. -/
theorem admin_gate :
    (∀ uid : Nat, toString uid ≠ ADMIN_ID → admin_panel uid = ⟨none, 0⟩) ∧
    (∀ uid : Nat, (admin_panel uid).nextState = some ADMIN_MENU → toString uid = ADMIN_ID) ∧
    admin_panel 5316060523 = ⟨some ADMIN_MENU, 1⟩ := by
  refine ⟨?_, ?_, by decide⟩
  · intro uid h
    rw [admin_panel, if_pos h]
  · intro uid h
    by_cases hid : toString uid = ADMIN_ID
    · exact hid
    · rw [admin_panel, if_pos hid] at h
      simp at h

/-- Witness for admin_gate at a concrete non-admin identity. -/
theorem admin_gate_witness : admin_panel 42 = ⟨none, 0⟩ :=
  admin_gate.1 42 (by decide)
